import Mathlib

/-!
Shallow embedding of `stockCLI.py` (class `StockCLI`): the field catalog,
the value formatters, the data fetchers `get_stock_data` /
`get_historical_data`, the presenter `display_stock_info` with its three
additional-information blocks, and the JSON serialization step of `run`.

Python floats are modelled as rationals (`ℚ`); Python's fixed two-decimal
f-string formatting (`:.2f`) is modelled as round-half-even of 100·x,
which agrees with the Python behaviour on all decimally-representable
values considered here.  Python dictionaries are modelled as association
lists in insertion order, with Python's assignment semantics (`dictSet`
replaces in place, else appends).  Printing is modelled by returning the
list of printed strings; `stderr` output is returned alongside results.
-/

namespace StockCLI

/-- A Python value as stored in records and provider metadata:
`None`, a number (int or float, as a rational), or a string. -/
inductive PyVal where
  | none
  | num (q : ℚ)
  | str (s : String)
deriving DecidableEq, Repr

/-- Python `str.upper()`, modelled over the character sequence. -/
def pyUpper (s : String) : String := String.mk (s.data.map Char.toUpper)

/-- Python `str.strip()`: drop whitespace from both ends, modelled over
the character sequence. -/
def pyStrip (s : String) : String :=
  String.mk (((s.data.dropWhile Char.isWhitespace).reverse.dropWhile
    Char.isWhitespace).reverse)

/-- Python `str()` applied to a stored value.  `str(None)` is `"None"`;
strings pass through unchanged.  The precise repr of a non-integral float
is binary-float dependent and not statable; integral numbers print as
integers and other numbers via the rational repr. -/
def pyStr : PyVal → String
  | PyVal.none => "None"
  | PyVal.num q => if q.den = 1 then q.num.repr else q.num.repr ++ "/" ++ Nat.repr q.den
  | PyVal.str s => s

/-- Two-digit zero padding for the fractional part of a 2-decimal format. -/
def padLeft2 (n : Nat) : String := if n < 10 then "0" ++ Nat.repr n else Nat.repr n

/-- Round a rational to the nearest integer, ties to even: the rounding
used by Python's fixed-precision float formatting.  Computed on the
numerator and denominator so that it evaluates by kernel reduction. -/
def roundHalfEven (x : ℚ) : ℤ :=
  let f := x.num.ediv x.den
  let r2 := 2 * x.num.emod x.den
  if r2 < (x.den : ℤ) then f
  else if (x.den : ℤ) < r2 then f + 1
  else if f % 2 = 0 then f else f + 1

/-- Render an integer count of hundredths as a plain 2-decimal string. -/
def fmtHundredths (n : ℤ) : String :=
  (if n < 0 then "-" else "") ++ Nat.repr (n.natAbs / 100) ++ "." ++ padLeft2 (n.natAbs % 100)

/-- Python `f"{q:.2f}"`: fixed two decimals, round half to even. -/
def fmtFixed2 (q : ℚ) : String := fmtHundredths (roundHalfEven (q * 100))

/-- Insert a comma after every third character (input is the reversed
digit string of the integral part). -/
def commaGroupAux : List Char → List Char
  | a :: b :: c :: d :: rest => a :: b :: c :: ',' :: commaGroupAux (d :: rest)
  | l => l

/-- Group the decimal digits of a natural number with commas every three,
as Python's `,` format specifier does. -/
def commaGroup (n : Nat) : String :=
  String.mk (commaGroupAux (Nat.repr n).data.reverse).reverse

/-- Python `f"{q:,.2f}"`: grouped thousands, fixed two decimals. -/
def fmtGrouped2 (q : ℚ) : String :=
  let n := roundHalfEven (q * 100)
  (if n < 0 then "-" else "") ++ commaGroup (n.natAbs / 100) ++ "." ++ padLeft2 (n.natAbs % 100)

/-- Python `f"{q:+.2f}"`: fixed two decimals with an explicit sign. -/
def fmtSigned2 (q : ℚ) : String :=
  let n := roundHalfEven (q * 100)
  (if n < 0 then "-" else "+") ++ Nat.repr (n.natAbs / 100) ++ "." ++ padLeft2 (n.natAbs % 100)

/-- Python `f"{q:,}"` on a number.  On integral values this is grouped
thousands; the rendering of a non-integral float depends on the binary
float repr and is abstracted by the rational repr (no claim exercises
that case). -/
def fmtGroupedNum (q : ℚ) : String :=
  if q.den = 1 then (if q.num < 0 then "-" else "") ++ commaGroup q.num.natAbs
  else q.num.repr ++ "/" ++ Nat.repr q.den

/-- Numeric content of a stored value, used where the Python source
applies arithmetic or numeric formatting to a record field that is
always numeric in records the program builds (a non-numeric value there
would raise in Python; the model totalizes with 0). -/
def asNum : PyVal → ℚ
  | PyVal.num q => q
  | _ => 0

/-- Python `isinstance(value, (int, float))` on a stored value. -/
def isNumV : PyVal → Bool
  | PyVal.num _ => true
  | _ => false

/-- Constant `StockCLI.TRILLION` (`1e12`). -/
def TRILLION : ℚ := 1000000000000

/-- Constant `StockCLI.BILLION` (`1e9`). -/
def BILLION : ℚ := 1000000000

/-- Constant `StockCLI.MILLION` (`1e6`). -/
def MILLION : ℚ := 1000000

/-- Constant `StockCLI.THOUSAND` (`1e3`). -/
def THOUSAND : ℚ := 1000

/-- Method `format_currency`: the locale-aware primary path depends on the
process locale and is not statable; the documented fallback
`f"${value:,.2f}"` is modelled. -/
def format_currency (value : ℚ) : String := "$" ++ fmtGrouped2 value

/-- Method `format_percentage`: `f"{value:+.2f}%"`. -/
def format_percentage (value : ℚ) : String := fmtSigned2 value ++ "%"

/-- Method `format_large_number`: suffix scaling by the largest applicable
threshold, checked largest first, else grouped 2-decimal currency. -/
def format_large_number (value : ℚ) : String :=
  if value ≥ TRILLION then "$" ++ fmtFixed2 (value / TRILLION) ++ "T"
  else if value ≥ BILLION then "$" ++ fmtFixed2 (value / BILLION) ++ "B"
  else if value ≥ MILLION then "$" ++ fmtFixed2 (value / MILLION) ++ "M"
  else if value ≥ THOUSAND then "$" ++ fmtFixed2 (value / THOUSAND) ++ "K"
  else "$" ++ fmtGrouped2 value

/-- The field keys treated as ratio-as-fraction values by
`format_field_value` (first membership list in the source). -/
def ratioFractionFields : List String :=
  ["dividendYield", "payoutRatio", "profitMargins", "operatingMargins",
   "ebitdaMargins", "grossMargins", "returnOnAssets", "returnOnEquity",
   "returnOnCapital", "revenueGrowth", "earningsGrowth", "earningsQuarterlyGrowth",
   "fiftyTwoWeekChangePercent", "shortPercentOfFloat"]

/-- The field keys formatted as large currency amounts by
`format_field_value` (second membership list in the source). -/
def largeCurrencyFields : List String :=
  ["marketCap", "enterpriseValue", "revenue", "grossProfits",
   "freeCashflow", "operatingCashflow", "targetMeanPrice",
   "targetMedianPrice", "targetHighPrice", "targetLowPrice",
   "fiftyDayAverage", "twoHundredDayAverage", "fiftyTwoWeekLow",
   "fiftyTwoWeekHigh", "fiftyTwoWeekChange", "bookValue",
   "dividendRate", "lastDividendValue"]

/-- The field keys formatted as plain 2-decimal ratios by
`format_field_value` (third membership list in the source). -/
def plainRatioFields : List String :=
  ["trailingPE", "forwardPE", "pegRatio", "priceToBook",
   "enterpriseToRevenue", "enterpriseToEbitda", "priceToSalesTrailing12Months",
   "shortRatio", "recommendationMean"]

/-- The field keys formatted as grouped integer counts by
`format_field_value` (fourth membership list in the source). -/
def countFields : List String :=
  ["volume", "averageVolume", "averageVolume10days", "bidSize", "askSize",
   "floatShares", "sharesOutstanding", "sharesShort", "sharesShortPriorMonth",
   "numberOfAnalystOpinions", "fullTimeEmployees"]

/-- Method `format_field_value`: dispatch on the field key's class, with
`None` mapped to `"N/A"` first and non-numeric values degraded to
`str()` inside each numeric class. -/
def format_field_value (field_key : String) (value : PyVal) : String :=
  match value with
  | PyVal.none => "N/A"
  | v =>
    if field_key ∈ ratioFractionFields then
      match v with
      | PyVal.num q => fmtFixed2 (q * 100) ++ "%"
      | _ => pyStr v
    else if field_key ∈ largeCurrencyFields then
      match v with
      | PyVal.num q => format_large_number q
      | _ => pyStr v
    else if field_key ∈ plainRatioFields then
      match v with
      | PyVal.num q => fmtFixed2 q
      | _ => pyStr v
    else if field_key ∈ countFields then
      match v with
      | PyVal.num q => fmtGroupedNum q
      | _ => pyStr v
    else pyStr v

/-- The constructor literal `self.field_categories`: category name to the
ordered list of (field key, display label) pairs, in source order. -/
def field_categories : List (String × List (String × String)) :=
  [("Basic Info",
    [("longName", "Company Name"), ("shortName", "Short Name"),
     ("symbol", "Symbol"), ("exchange", "Exchange"),
     ("quoteType", "Quote Type"), ("market", "Market"),
     ("marketState", "Market State"), ("currency", "Currency"),
     ("timeZoneFullName", "Time Zone")]),
   ("Price & Volume",
    [("currentPrice", "Current Price"), ("previousClose", "Previous Close"),
     ("open", "Open"), ("dayLow", "Day Low"), ("dayHigh", "Day High"),
     ("volume", "Volume"), ("averageVolume", "Avg Volume"),
     ("averageVolume10days", "Avg Volume (10d)"), ("bid", "Bid"),
     ("ask", "Ask"), ("bidSize", "Bid Size"), ("askSize", "Ask Size")]),
   ("Market Metrics",
    [("marketCap", "Market Cap"), ("enterpriseValue", "Enterprise Value"),
     ("floatShares", "Float Shares"), ("sharesOutstanding", "Shares Outstanding"),
     ("sharesShort", "Shares Short"),
     ("sharesShortPreviousMonthDate", "Short Month Date"),
     ("sharesShortPriorMonth", "Short Prior Month"),
     ("shortRatio", "Short Ratio"), ("shortPercentOfFloat", "Short % of Float")]),
   ("Valuation Ratios",
    [("trailingPE", "P/E Ratio (TTM)"), ("forwardPE", "Forward P/E"),
     ("pegRatio", "PEG Ratio"), ("priceToBook", "Price/Book"),
     ("enterpriseToRevenue", "Enterprise/Revenue"),
     ("enterpriseToEbitda", "Enterprise/EBITDA"), ("bookValue", "Book Value"),
     ("priceToSalesTrailing12Months", "Price/Sales")]),
   ("Financial Metrics",
    [("revenue", "Revenue"), ("revenuePerShare", "Revenue/Share"),
     ("revenueGrowth", "Revenue Growth"), ("grossProfits", "Gross Profits"),
     ("freeCashflow", "Free Cash Flow"), ("operatingCashflow", "Operating Cash Flow"),
     ("earningsGrowth", "Earnings Growth"),
     ("earningsQuarterlyGrowth", "Quarterly Earnings Growth"),
     ("returnOnAssets", "ROA"), ("returnOnEquity", "ROE"),
     ("returnOnCapital", "ROIC"), ("profitMargins", "Profit Margin"),
     ("operatingMargins", "Operating Margin"), ("ebitdaMargins", "EBITDA Margin"),
     ("grossMargins", "Gross Margin")]),
   ("Dividend Info",
    [("dividendRate", "Dividend Rate"), ("dividendYield", "Dividend Yield"),
     ("payoutRatio", "Payout Ratio"),
     ("fiveYearAvgDividendYield", "5Y Avg Dividend Yield"),
     ("exDividendDate", "Ex-Dividend Date"),
     ("lastDividendDate", "Last Dividend Date"),
     ("lastDividendValue", "Last Dividend Value")]),
   ("Analyst Info",
    [("targetMeanPrice", "Target Mean Price"),
     ("targetMedianPrice", "Target Median Price"),
     ("targetHighPrice", "Target High Price"),
     ("targetLowPrice", "Target Low Price"),
     ("numberOfAnalystOpinions", "Analyst Opinions"),
     ("recommendationMean", "Recommendation"),
     ("recommendationKey", "Recommendation Key")]),
   ("Technical Indicators",
    [("fiftyDayAverage", "50-Day Average"),
     ("twoHundredDayAverage", "200-Day Average"),
     ("fiftyTwoWeekLow", "52-Week Low"), ("fiftyTwoWeekHigh", "52-Week High"),
     ("fiftyTwoWeekChange", "52-Week Change"),
     ("fiftyTwoWeekChangePercent", "52-Week Change %")]),
   ("Company Info",
    [("industry", "Industry"), ("sector", "Sector"), ("country", "Country"),
     ("state", "State"), ("city", "City"), ("zip", "ZIP"), ("phone", "Phone"),
     ("website", "Website"), ("businessSummary", "Business Summary"),
     ("fullTimeEmployees", "Full-Time Employees")])]

/-- The flattened lookup `self.all_fields`, built by updating an empty
dict with each category's fields in order (field keys are pairwise
distinct across categories, so this equals concatenation). -/
def all_fields : List (String × String) :=
  (field_categories.map (fun c => c.2)).flatten

/-- The iteration order `self.all_fields.keys()`. -/
def all_fields_keys : List String := all_fields.map (fun kv => kv.1)

/-- Field keys are unique across categories (the catalog invariant the
flattening relies on). -/
lemma all_fields_keys_nodup : all_fields_keys.Nodup := by decide

/-- Python dict read `d[k]` / `k in d`: the value at the key, if present.
Records and provider metadata are association lists whose order is
insertion order; keys are unique in every dict the program builds. -/
def dictGet (d : List (String × PyVal)) (k : String) : Option PyVal :=
  (d.find? (fun kv => kv.1 == k)).map (fun kv => kv.2)

/-- Python `d.get(k, default)`. -/
def dictGetD (d : List (String × PyVal)) (k : String) (default : PyVal) : PyVal :=
  match dictGet d k with
  | some v => v
  | Option.none => default

/-- Python dict assignment `d[k] = v`: replace in place if the key is
present, else append. -/
def dictSet (d : List (String × PyVal)) (k : String) (v : PyVal) : List (String × PyVal) :=
  if d.any (fun kv => kv.1 == k) then
    d.map (fun kv => if kv.1 == k then (k, v) else kv)
  else d ++ [(k, v)]

/-- The merge loop at the end of `get_stock_data`: for each catalog key
present and non-`None` in the provider metadata, assign it into the
record. -/
def mergeInfoFields (info : List (String × PyVal)) (data : List (String × PyVal)) :
    List (String × PyVal) :=
  all_fields_keys.foldl (fun d field_key =>
    match dictGet info field_key with
    | some v => if v ≠ PyVal.none then dictSet d field_key v else d
    | Option.none => d) data

/-- A calendar date carried by the historical frame's index; only its
`%d/%m/%Y` rendering is observed. -/
structure Date where
  day : Nat
  month : Nat
  year : Nat
deriving DecidableEq, Repr

/-- Python `d.strftime(%d/%m/%Y)`: zero-padded day and month, then year. -/
def Date.fmtDMY (d : Date) : String :=
  padLeft2 d.day ++ "/" ++ padLeft2 d.month ++ "/" ++ Nat.repr d.year

/-- The provider's historical frame: a date index and the optional OHLCV
columns, each a series of one value per row when present. -/
structure HistFrame where
  index : List Date
  close : Option (List ℚ)
  volume : Option (List ℚ)
  high : Option (List ℚ)
  low : Option (List ℚ)
  open_ : Option (List ℚ)
deriving DecidableEq, Repr

/-- A present column of a frame has one value per index row. -/
def colWF (n : Nat) : Option (List ℚ) → Prop
  | Option.none => True
  | some l => l.length = n

/-- Frame well-formedness: every present column is as long as the index
(every pandas frame satisfies this by construction). -/
def HistFrame.WF (h : HistFrame) : Prop :=
  colWF h.index.length h.close ∧ colWF h.index.length h.volume ∧
    colWF h.index.length h.high ∧ colWF h.index.length h.low ∧
    colWF h.index.length h.open_

/-- The local `current_price` of `get_stock_data`:
`hist[Close].iloc[-1]`. -/
def sd_current_price (closes : List ℚ) : ℚ := closes.getLastD 0

/-- The local `previous_close` of `get_stock_data`:
`hist[Close].iloc[-2]` when the window has more than one row, else the
current price. -/
def sd_previous_close (nrows : Nat) (closes : List ℚ) : ℚ :=
  if 1 < nrows then closes.getD (closes.length - 2) 0 else sd_current_price closes

/-- The local `change` of `get_stock_data`. -/
def sd_change (nrows : Nat) (closes : List ℚ) : ℚ :=
  sd_current_price closes - sd_previous_close nrows closes

/-- The local `change_percent` of `get_stock_data`: guarded against a
zero previous close. -/
def sd_change_percent (nrows : Nat) (closes : List ℚ) : ℚ :=
  if sd_previous_close nrows closes ≠ 0 then
    sd_change nrows closes / sd_previous_close nrows closes * 100
  else 0

/-- The local `volume` of `get_stock_data`: last row of the `Volume`
column, or 0 when the column is absent. -/
def sd_volume (hist : HistFrame) : ℚ :=
  match hist.volume with
  | some vs => vs.getLastD 0
  | Option.none => 0

/-- The local `high` of `get_stock_data`: last row of the `High` column,
or the current price when the column is absent. -/
def sd_high (hist : HistFrame) (closes : List ℚ) : ℚ :=
  match hist.high with
  | some hs => hs.getLastD 0
  | Option.none => sd_current_price closes

/-- The local `low` of `get_stock_data`: last row of the `Low` column,
or the current price when the column is absent. -/
def sd_low (hist : HistFrame) (closes : List ℚ) : ℚ :=
  match hist.low with
  | some ls => ls.getLastD 0
  | Option.none => sd_current_price closes

/-- The base record literal `data = { ... }` of `get_stock_data`, before
the catalog merge loop. -/
def sd_base (sym now : String) (info : List (String × PyVal)) (hist : HistFrame)
    (closes : List ℚ) : List (String × PyVal) :=
  [("symbol", PyVal.str sym),
   ("name", dictGetD info "longName" (dictGetD info "shortName" (PyVal.str sym))),
   ("current_price", PyVal.num (sd_current_price closes)),
   ("previous_close", PyVal.num (sd_previous_close hist.index.length closes)),
   ("change", PyVal.num (sd_change hist.index.length closes)),
   ("change_percent", PyVal.num (sd_change_percent hist.index.length closes)),
   ("volume", PyVal.num (sd_volume hist)),
   ("high", PyVal.num (sd_high hist closes)),
   ("low", PyVal.num (sd_low hist closes)),
   ("timestamp", PyVal.str now)]

/-- Method `get_stock_data`.  The provider (the `yf.Ticker` calls) is a
parameter returning metadata and the 2-day frame, or an exception
message; `now` is the timestamp string.  The result pairs the returned
record (`None` on failure) with the list of messages printed to stderr.
A missing `Close` column raises `KeyError`, whose `str()` is the quoted
key; the `except` clause turns it into the diagnostic line. -/
def get_stock_data (symbol : String)
    (provider : String → Except String (List (String × PyVal) × HistFrame))
    (now : String) : Option (List (String × PyVal)) × List String :=
  let sym := pyStrip (pyUpper symbol)
  match provider sym with
  | Except.error e => (Option.none, ["Error fetching data for " ++ sym ++ ": " ++ e])
  | Except.ok (info, hist) =>
    if hist.index.isEmpty then (Option.none, [])
    else
      match hist.close with
      | Option.none =>
          (Option.none, ["Error fetching data for " ++ sym ++ ": \x27Close\x27"])
      | some closes =>
        (some (mergeInfoFields info (sd_base sym now info hist closes)), [])

/-- The record returned by `get_historical_data`: the symbol and the
parallel series. -/
structure HistResult where
  symbol : String
  dates : List String
  prices : List ℚ
  volumes : List ℚ
  highs : List ℚ
  lows : List ℚ
  opens : List ℚ
deriving DecidableEq, Repr

/-- Method `get_historical_data`.  Same provider-as-parameter shape;
`prices` reads the `Close` column unguarded (`KeyError` on absence,
caught by the `except` clause), while the volume/high/low/open series
fall back to the empty list when their column is absent. -/
def get_historical_data (symbol : String) (period : String)
    (provider : String → String → Except String HistFrame) :
    Option HistResult × List String :=
  let sym := pyStrip (pyUpper symbol)
  match provider sym period with
  | Except.error e =>
      (Option.none, ["Error fetching historical data for " ++ sym ++ ": " ++ e])
  | Except.ok hist =>
    if hist.index.isEmpty then (Option.none, [])
    else
      let dates := hist.index.map Date.fmtDMY
      match hist.close with
      | Option.none =>
          (Option.none, ["Error fetching historical data for " ++ sym ++ ": \x27Close\x27"])
      | some closes =>
        (some { symbol := sym
                dates := dates
                prices := closes
                volumes :=
                  match hist.volume with
                  | some vs => vs
                  | Option.none => []
                highs :=
                  match hist.high with
                  | some hs => hs
                  | Option.none => []
                lows :=
                  match hist.low with
                  | some ls => ls
                  | Option.none => []
                opens :=
                  match hist.open_ with
                  | some os => os
                  | Option.none => [] }, [])

/-- The JSON branch of `run`: copy the record and delete `timestamp`
before serializing.  On a dict (unique keys) the deletion is removal of
every entry at that key. -/
def json_payload (data : List (String × PyVal)) : List (String × PyVal) :=
  data.filter (fun kv => kv.1 ≠ "timestamp")

/-- The constructor literal `self.colors` (ANSI escape codes). -/
def default_colors : List (String × String) :=
  [("green", "\x1b[92m"), ("red", "\x1b[91m"), ("yellow", "\x1b[93m"),
   ("blue", "\x1b[94m"), ("bold", "\x1b[1m"), ("reset", "\x1b[0m")]

/-- The `--no-colors` replacement: every code swapped for the empty
string. -/
def no_colors : List (String × String) :=
  [("green", ""), ("red", ""), ("yellow", ""), ("blue", ""), ("bold", ""), ("reset", "")]

/-- Method `colorize`: wrap the text in the named code and the reset code
when the name is known, else return the text unchanged.  Both color
tables the program uses contain `"reset"`, so the lookup default is
never observed. -/
def colorize (colors : List (String × String)) (text : String) (color : String) : String :=
  match colors.find? (fun kv => kv.1 == color) with
  | some kv =>
      kv.2 ++ text ++ (((colors.find? (fun kv => kv.1 == "reset")).map
        (fun kv => kv.2)).getD "")
  | Option.none => text

/-- The 60-character separator rule used by the presenter. -/
def sepLine : String := String.mk (List.replicate 60 '=')

/-- Method `_display_detailed_info`: the legacy three-field block printed
by `-d` when neither `--all` nor `--fields` is given.  The numeric
f-string formats on `trailingPE` and `dividendYield` are applied to the
numeric content (a non-numeric value there would raise in Python). -/
def _display_detailed_info (colors : List (String × String))
    (data : List (String × PyVal)) : List String :=
  ("\n" ++ colorize colors "Additional Info:" "bold") ::
    ((if (dictGet data "marketCap").isSome then
        ["  Market Cap: " ++ format_large_number (asNum (dictGetD data "marketCap" PyVal.none))]
      else []) ++
     (if (dictGet data "trailingPE").isSome then
        ["  P/E Ratio: " ++ fmtFixed2 (asNum (dictGetD data "trailingPE" PyVal.none))]
      else []) ++
     (if (dictGet data "dividendYield").isSome then
        ["  Dividend Yield: " ++
          fmtFixed2 (asNum (dictGetD data "dividendYield" PyVal.none) * 100) ++ "%"]
      else []))

/-- Method `_display_specific_fields`: the header print followed by the
loop over the requested keys, accumulating one printed line per key. -/
def _display_specific_fields (colors : List (String × String))
    (data : List (String × PyVal)) (fields : List String) : List String :=
  fields.foldl (fun out field =>
    match all_fields.find? (fun kv => kv.1 == field) with
    | some kv =>
        out ++ ["  " ++ kv.2 ++ ": " ++
          format_field_value field (dictGetD data field PyVal.none)]
    | Option.none => out ++ ["  " ++ field ++ ": Field not available"])
    ["\n" ++ colorize colors "Requested Fields:" "bold"]

/-- The inner loop of `_display_all_fields`: the `category_data` list
collected for one category — label and formatted value of each field
present and non-null in the record, in catalog order. -/
def categoryLines (data : List (String × PyVal))
    (fields : List (String × String)) : List (String × String) :=
  fields.foldl (fun acc kv =>
    match dictGet data kv.1 with
    | some v =>
        if v ≠ PyVal.none then acc ++ [(kv.2, format_field_value kv.1 v)] else acc
    | Option.none => acc) []

/-- Method `_display_all_fields`: for each category in order, collect the
fields present and non-null in the record, and print a header plus one
line per collected field when the collection is non-empty. -/
def _display_all_fields (colors : List (String × String))
    (data : List (String × PyVal)) : List String :=
  field_categories.foldl (fun out cat =>
    let category_data := categoryLines data cat.2
    if category_data.isEmpty then out
    else out ++ (("\n" ++ colorize colors (cat.1 ++ ":") "bold") ::
      category_data.map (fun p => "  " ++ p.1 ++ ": " ++ p.2))) []

/-- The header, price and change prints of `display_stock_info` (its
first six `print` statements after the empty-record guard). -/
def headerPriceSection (colors : List (String × String))
    (data : List (String × PyVal)) : List String :=
  let change := asNum (dictGetD data "change" PyVal.none)
  let price_color := if change ≥ 0 then "green" else "red"
  let change_symbol := if change ≥ 0 then "▲" else "▼"
  let change_text := change_symbol ++ " " ++
    format_currency (asNum (dictGetD data "change" PyVal.none)) ++ " (" ++
    format_percentage (asNum (dictGetD data "change_percent" PyVal.none)) ++ ")"
  ["\n" ++ colorize colors sepLine "bold",
   colorize colors (pyStr (dictGetD data "name" PyVal.none) ++ " (" ++
     pyStr (dictGetD data "symbol" PyVal.none) ++ ")") "bold",
   colorize colors sepLine "bold",
   "\n" ++ colorize colors "Current Price:" "bold" ++ " " ++
     colorize colors (format_currency (asNum (dictGetD data "current_price" PyVal.none)))
       price_color,
   colorize colors "Change:" "bold" ++ " " ++ colorize colors change_text price_color,
   colorize colors "Previous Close:" "bold" ++ " " ++
     format_currency (asNum (dictGetD data "previous_close" PyVal.none))]

/-- The `Trading Info` block of `display_stock_info`, printed only in
detailed mode. -/
def tradingInfoSection (colors : List (String × String))
    (data : List (String × PyVal)) : List String :=
  ["\n" ++ colorize colors "Trading Info:" "bold",
   "  High: " ++ format_currency (asNum (dictGetD data "high" PyVal.none)),
   "  Low: " ++ format_currency (asNum (dictGetD data "low" PyVal.none)),
   "  Volume: " ++ fmtGroupedNum (asNum (dictGetD data "volume" PyVal.none))]

/-- The `Last Updated` footer prints of `display_stock_info`. -/
def footerSection (colors : List (String × String))
    (data : List (String × PyVal)) : List String :=
  ["\n" ++ colorize colors "Last Updated:" "bold" ++ " " ++
     pyStr (dictGetD data "timestamp" PyVal.none),
   colorize colors sepLine "bold" ++ "\n"]

/-- Python truthiness of the `--fields` argument: absent or an empty list
is falsy. -/
def truthyFields : Option (List String) → Bool
  | Option.none => false
  | some l => !l.isEmpty

/-- Method `display_stock_info`: the full non-JSON rendering path, with
the nested additional-information dispatch exactly as in the source
(outer guard `detailed or specific_fields or show_all`, inner chain
`show_all` / `specific_fields` / fallback). -/
def display_stock_info (colors : List (String × String))
    (data : List (String × PyVal)) (detailed : Bool)
    (specific_fields : Option (List String)) (show_all : Bool) : List String :=
  if data.isEmpty then ["No data available for this symbol."]
  else
    headerPriceSection colors data ++
    (if detailed then tradingInfoSection colors data else []) ++
    (if detailed || truthyFields specific_fields || show_all then
      if show_all then _display_all_fields colors data
      else if truthyFields specific_fields then
        _display_specific_fields colors data (specific_fields.getD [])
      else _display_detailed_info colors data
     else []) ++
    footerSection colors data

/-- Reading a cons cell dict: head key first, else the tail. -/
lemma dictGet_cons (kv : String × PyVal) (d : List (String × PyVal)) (k : String) :
    dictGet (kv :: d) k = if kv.1 == k then some kv.2 else dictGet d k := by
  by_cases h : kv.1 == k <;> simp [dictGet, List.find?_cons, h]

/-- Replacing the value at one key does not change reads at another key. -/
lemma dictGet_overwrite_map (d : List (String × PyVal)) (kset k : String)
    (v : PyVal) (hne : k ≠ kset) :
    dictGet (d.map (fun kv => if kv.1 == kset then (kset, v) else kv)) k = dictGet d k := by
  induction d with
  | nil => rfl
  | cons kv t ih =>
    by_cases h1 : kv.1 = kset
    · have hk : ¬ kv.1 = k := by rw [h1]; exact Ne.symm hne
      simp only [List.map_cons, show (kv.1 == kset) = true by simpa using h1,
        if_true, dictGet_cons]
      rw [show (kset == k) = false by simpa using Ne.symm hne,
        show (kv.1 == k) = false by simpa using hk]
      simp only [Bool.false_eq_true, if_false]
      exact ih
    · have hb : (kv.1 == kset) = false := by simpa using h1
      simp only [List.map_cons, hb, Bool.false_eq_true, if_false, dictGet_cons]
      rw [ih]

/-- Appending an entry at one key does not change reads at another key. -/
lemma dictGet_append_ne (d : List (String × PyVal)) (kset k : String)
    (v : PyVal) (hne : k ≠ kset) :
    dictGet (d ++ [(kset, v)]) k = dictGet d k := by
  induction d with
  | nil =>
    have hb : (kset == k) = false := by simpa using Ne.symm hne
    simp [dictGet, List.find?, hb]
  | cons kv t ih => simp only [List.cons_append, dictGet_cons]; rw [ih]

/-- Assignment at one key does not change reads at another key. -/
lemma dictGet_dictSet_ne (d : List (String × PyVal)) (kset k : String)
    (v : PyVal) (hne : k ≠ kset) :
    dictGet (dictSet d kset v) k = dictGet d k := by
  unfold dictSet
  split
  · exact dictGet_overwrite_map d kset k v hne
  · exact dictGet_append_ne d kset k v hne

/-- The merge loop leaves a key untouched when no iteration writes it:
every occurrence of the key in the iterated list finds the metadata
either lacking the key or holding `None` there. -/
lemma foldl_merge_get (info : List (String × PyVal)) (keys : List String) :
    ∀ (d : List (String × PyVal)) (k : String),
    (∀ k2 ∈ keys, k2 = k →
      dictGet info k = Option.none ∨ dictGet info k = some PyVal.none) →
    dictGet (keys.foldl (fun d field_key =>
      match dictGet info field_key with
      | some v => if v ≠ PyVal.none then dictSet d field_key v else d
      | Option.none => d) d) k = dictGet d k := by
  induction keys with
  | nil => intro d k _; rfl
  | cons key rest ih =>
    intro d k h
    rw [List.foldl_cons, ih _ k (fun k2 hk2 => h k2 (List.mem_cons_of_mem _ hk2))]
    by_cases hkk : key = k
    · subst hkk
      rcases h key (List.mem_cons_self _ _) rfl with h0 | h0 <;> rw [h0] <;> simp
    · cases hinfo : dictGet info key with
      | none => rfl
      | some v =>
        by_cases hv : v = PyVal.none
        · subst hv; simp
        · simp only [ne_eq, hv, not_false_iff, if_true]
          exact dictGet_dictSet_ne d key k v (Ne.symm hkk)

/-- Keys outside the catalog survive the merge loop unchanged. -/
lemma mergeInfoFields_get_of_not_mem (info d : List (String × PyVal)) (k : String)
    (hk : k ∉ all_fields_keys) :
    dictGet (mergeInfoFields info d) k = dictGet d k :=
  foldl_merge_get info all_fields_keys d k (fun k2 h2 heq => absurd (heq ▸ h2) hk)

/-- Keys the metadata lacks (or holds `None` at) survive the merge loop
unchanged. -/
lemma mergeInfoFields_get_of_absent (info d : List (String × PyVal)) (k : String)
    (hinfo : dictGet info k = Option.none ∨ dictGet info k = some PyVal.none) :
    dictGet (mergeInfoFields info d) k = dictGet d k :=
  foldl_merge_get info all_fields_keys d k (fun _ _ _ => hinfo)

/-- Rewriting the scaled argument lets a fixed-2 format be evaluated once
the arithmetic has been normalized. -/
lemma fmtFixed2_eval (q r : ℚ) (h : q * 100 = r) :
    fmtFixed2 q = fmtHundredths (roundHalfEven r) := by rw [fmtFixed2, h]

/-- C3: `format_large_number` selects the largest applicable threshold
with inclusive boundaries checked largest-first: at least `1e12` scales
by `1e12` with suffix `T`, else at least `1e9` suffix `B`, else at least
`1e6` suffix `M`, else at least `1e3` suffix `K`, else a grouped
2-decimal currency amount; in particular `1.5e12` gives `$1.50T`,
`2.3e9` gives `$2.30B`, `1500` gives `$1.50K` and `999` gives
`$999.00`. -/
theorem C3_format_large_number :
    (∀ v : ℚ,
      (TRILLION ≤ v →
        format_large_number v = "$" ++ fmtFixed2 (v / TRILLION) ++ "T") ∧
      (BILLION ≤ v → v < TRILLION →
        format_large_number v = "$" ++ fmtFixed2 (v / BILLION) ++ "B") ∧
      (MILLION ≤ v → v < BILLION →
        format_large_number v = "$" ++ fmtFixed2 (v / MILLION) ++ "M") ∧
      (THOUSAND ≤ v → v < MILLION →
        format_large_number v = "$" ++ fmtFixed2 (v / THOUSAND) ++ "K") ∧
      (v < THOUSAND → format_large_number v = "$" ++ fmtGrouped2 v)) ∧
    format_large_number 1500000000000 = "$1.50T" ∧
    format_large_number 2300000000 = "$2.30B" ∧
    format_large_number 1500 = "$1.50K" ∧
    format_large_number 999 = "$999.00" := by
  refine ⟨fun v => ⟨?_, ?_, ?_, ?_, ?_⟩, ?_, ?_, ?_, ?_⟩
  · intro h; rw [format_large_number, if_pos h]
  · intro h hlt
    rw [format_large_number, if_neg (not_le.mpr hlt), if_pos h]
  · intro h hlt
    rw [format_large_number, if_neg (not_le.mpr (hlt.trans_le (by norm_num [TRILLION, BILLION]))),
      if_neg (not_le.mpr hlt), if_pos h]
  · intro h hlt
    rw [format_large_number,
      if_neg (not_le.mpr (hlt.trans_le (by norm_num [TRILLION, MILLION]))),
      if_neg (not_le.mpr (hlt.trans_le (by norm_num [BILLION, MILLION]))),
      if_neg (not_le.mpr hlt), if_pos h]
  · intro hlt
    rw [format_large_number,
      if_neg (not_le.mpr (hlt.trans_le (by norm_num [TRILLION, THOUSAND]))),
      if_neg (not_le.mpr (hlt.trans_le (by norm_num [BILLION, THOUSAND]))),
      if_neg (not_le.mpr (hlt.trans_le (by norm_num [MILLION, THOUSAND]))),
      if_neg (not_le.mpr hlt)]
  · rw [format_large_number, if_pos (by norm_num [TRILLION]),
      fmtFixed2_eval _ 150 (by norm_num [TRILLION])]
    decide
  · rw [format_large_number, if_neg (by norm_num [TRILLION]),
      if_pos (by norm_num [BILLION]), fmtFixed2_eval _ 230 (by norm_num [BILLION])]
    decide
  · rw [format_large_number, if_neg (by norm_num [TRILLION]),
      if_neg (by norm_num [BILLION]), if_neg (by norm_num [MILLION]),
      if_pos (by norm_num [THOUSAND]), fmtFixed2_eval _ 150 (by norm_num [THOUSAND])]
    decide
  · rw [format_large_number, if_neg (by norm_num [TRILLION]),
      if_neg (by norm_num [BILLION]), if_neg (by norm_num [MILLION]),
      if_neg (by norm_num [THOUSAND])]
    rw [show fmtGrouped2 999 = fmtGrouped2 999 from rfl, fmtGrouped2]
    norm_num [roundHalfEven]
    decide

/-- C3 witness: the theorem applied at `2500`, which lies in the
thousands band. -/
theorem C3_witness :
    format_large_number 2500 = "$" ++ fmtFixed2 ((2500 : ℚ) / THOUSAND) ++ "K" :=
  (C3_format_large_number.1 2500).2.2.2.1 (by norm_num [THOUSAND]) (by norm_num [MILLION])

/-- C5 counterexample: a provider string value `"N/A"` is passed through
string conversion, so the formatter also returns the literal `"N/A"` on
a value that is not `None`, refuting the claimed "exactly when". -/
theorem C5_counterexample :
    format_field_value "longName" (PyVal.str "N/A") = "N/A" ∧
      PyVal.str "N/A" ≠ PyVal.none := by
  constructor
  · decide
  · intro h; cases h

/-- C5 (amended): `format_field_value` returns `"N/A"` whenever the value
is `None`, for every field key (but not only then: a string value equal
to `"N/A"` also renders as `"N/A"`); for every ratio-as-fraction field
key a numeric value `v` renders as `v * 100` to fixed 2 decimals with a
trailing `%` (`0.1234` gives `12.34%`), and a non-numeric value passes
through generic string conversion. -/
theorem C5_format_field_value :
    (∀ k : String, format_field_value k PyVal.none = "N/A") ∧
    (∀ k ∈ ratioFractionFields, ∀ q : ℚ,
      format_field_value k (PyVal.num q) = fmtFixed2 (q * 100) ++ "%") ∧
    (∀ k ∈ ratioFractionFields, ∀ s : String,
      format_field_value k (PyVal.str s) = s) ∧
    format_field_value "dividendYield" (PyVal.num (1234 / 10000)) = "12.34%" := by
  refine ⟨fun k => rfl, ?_, ?_, ?_⟩
  · intro k hk q
    simp only [format_field_value, if_pos hk]
  · intro k hk s
    simp only [format_field_value, if_pos hk, pyStr]
  · have hk : "dividendYield" ∈ ratioFractionFields := by decide
    simp only [format_field_value, if_pos hk]
    rw [fmtFixed2_eval _ 1234 (by norm_num)]
    decide

/-- C5 witness: the amended theorem applied at the `payoutRatio` key and
the string value `"abc"`. -/
theorem C5_witness :
    format_field_value "payoutRatio" (PyVal.str "abc") = "abc" :=
  C5_format_field_value.2.2.1 "payoutRatio" (by decide) "abc"

/-- C1 counterexample: a successful provider call returning an empty
historical window makes `get_stock_data` return `None` with an empty
stderr transcript — no diagnostic message is emitted on this path,
refuting the claimed diagnostic (the source prints only from the
`except` clause, and `if hist.empty` returns silently). -/
theorem C1_counterexample :
    get_stock_data "AAPL"
      (fun _ => Except.ok ([],
        { index := [], close := Option.none, volume := Option.none,
          high := Option.none, low := Option.none, open_ := Option.none }))
      "2024-01-01 00:00:00" = (Option.none, []) := by decide

/-- C1 (amended): whenever the provider call succeeds but the historical
window is empty, `get_stock_data` returns `None` without raising and
without emitting anything to the error stream; a diagnostic is emitted
only when the provider call itself raises. -/
theorem C1_empty_window (symbol now : String) (info : List (String × PyVal))
    (hist : HistFrame) (h : hist.index = []) :
    get_stock_data symbol (fun _ => Except.ok (info, hist)) now =
      (Option.none, []) := by
  simp [get_stock_data, h]

/-- C1 witness: the amended theorem applied to a concrete empty frame. -/
theorem C1_witness :
    get_stock_data "msft"
      (fun _ => Except.ok ([("longName", PyVal.str "Microsoft")],
        { index := [], close := Option.none, volume := Option.none,
          high := Option.none, low := Option.none, open_ := Option.none }))
      "2024-01-02 00:00:00" = (Option.none, []) :=
  C1_empty_window "msft" "2024-01-02 00:00:00" [("longName", PyVal.str "Microsoft")]
    { index := [], close := Option.none, volume := Option.none,
      high := Option.none, low := Option.none, open_ := Option.none } rfl

/-- C2 counterexample: on a non-empty frame whose `Close` column is
absent, `get_historical_data` does not return a record with an empty
close series — the unguarded `hist[Close]` read raises `KeyError`,
which the `except` clause converts to `None` plus a diagnostic. -/
theorem C2_counterexample :
    get_historical_data "A" "1mo" (fun _ _ =>
      Except.ok { index := [{ day := 2, month := 1, year := 2024 }],
                  close := Option.none, volume := some [1],
                  high := some [1], low := some [1], open_ := some [1] }) =
      (Option.none, ["Error fetching historical data for A: \x27Close\x27"]) := by
  decide

/-- C2 (amended): on a non-empty frame whose `Close` column is present,
`get_historical_data` returns parallel series: the dates series has one
entry per frame row, the close series has the same length as the dates
series, and each of the volume, high, low and open series is empty when
its source column is absent and has the same length as the dates series
otherwise.  (The close series has no empty-sequence default: an absent
`Close` column instead fails the whole call.) -/
theorem C2_parallel_series (symbol period : String) (hist : HistFrame)
    (hwf : hist.WF) (hne : hist.index ≠ []) (closes : List ℚ)
    (hcl : hist.close = some closes) :
    ∃ res : HistResult,
      (get_historical_data symbol period (fun _ _ => Except.ok hist)).1 = some res ∧
      res.dates.length = hist.index.length ∧
      res.prices.length = res.dates.length ∧
      (hist.volume = Option.none → res.volumes = []) ∧
      (∀ vs, hist.volume = some vs → res.volumes.length = res.dates.length) ∧
      (hist.high = Option.none → res.highs = []) ∧
      (∀ hs, hist.high = some hs → res.highs.length = res.dates.length) ∧
      (hist.low = Option.none → res.lows = []) ∧
      (∀ ls, hist.low = some ls → res.lows.length = res.dates.length) ∧
      (hist.open_ = Option.none → res.opens = []) ∧
      (∀ os, hist.open_ = some os → res.opens.length = res.dates.length) := by
  obtain ⟨hwc, hwv, hwh, hwl, hwo⟩ := hwf
  have hie : hist.index.isEmpty = false := by
    cases hidx : hist.index with
    | nil => exact absurd hidx hne
    | cons a t => rfl
  have heq : (get_historical_data symbol period (fun _ _ => Except.ok hist)).1 =
      some { symbol := pyStrip (pyUpper symbol)
             dates := hist.index.map Date.fmtDMY
             prices := closes
             volumes :=
               match hist.volume with
               | some vs => vs
               | Option.none => []
             highs :=
               match hist.high with
               | some hs => hs
               | Option.none => []
             lows :=
               match hist.low with
               | some ls => ls
               | Option.none => []
             opens :=
               match hist.open_ with
               | some os => os
               | Option.none => [] } := by
    simp only [get_historical_data, hie, Bool.false_eq_true, if_false, hcl]
  refine ⟨_, heq, ?_, ?_, ?_, ?_, ?_, ?_, ?_, ?_, ?_, ?_⟩
  · simp [List.length_map]
  · rw [hcl] at hwc
    simpa [List.length_map] using hwc
  · intro hv; simp [hv]
  · intro vs hv; rw [hv] at hwv; simpa [hv, List.length_map] using hwv
  · intro hv; simp [hv]
  · intro hs hv; rw [hv] at hwh; simpa [hv, List.length_map] using hwh
  · intro hv; simp [hv]
  · intro ls hv; rw [hv] at hwl; simpa [hv, List.length_map] using hwl
  · intro hv; simp [hv]
  · intro os hv; rw [hv] at hwo; simpa [hv, List.length_map] using hwo

/-- C2 witness: the amended theorem applied to a one-row frame with a
close and a high column but no volume, low or open column. -/
theorem C2_witness :
    ∃ res : HistResult,
      (get_historical_data "ibm" "1mo" (fun _ _ =>
        Except.ok (HistFrame.mk [Date.mk 1 1 2024] (some [5]) Option.none
          (some [6]) Option.none Option.none))).1 = some res ∧
      res.dates.length =
        (HistFrame.mk [Date.mk 1 1 2024] (some [5]) Option.none
          (some [6]) Option.none Option.none).index.length ∧
      res.prices.length = res.dates.length ∧
      ((HistFrame.mk [Date.mk 1 1 2024] (some [5]) Option.none
          (some [6]) Option.none Option.none).volume = Option.none →
        res.volumes = []) ∧
      (∀ vs, (HistFrame.mk [Date.mk 1 1 2024] (some [5]) Option.none
          (some [6]) Option.none Option.none).volume = some vs →
        res.volumes.length = res.dates.length) ∧
      ((HistFrame.mk [Date.mk 1 1 2024] (some [5]) Option.none
          (some [6]) Option.none Option.none).high = Option.none →
        res.highs = []) ∧
      (∀ hs, (HistFrame.mk [Date.mk 1 1 2024] (some [5]) Option.none
          (some [6]) Option.none Option.none).high = some hs →
        res.highs.length = res.dates.length) ∧
      ((HistFrame.mk [Date.mk 1 1 2024] (some [5]) Option.none
          (some [6]) Option.none Option.none).low = Option.none →
        res.lows = []) ∧
      (∀ ls, (HistFrame.mk [Date.mk 1 1 2024] (some [5]) Option.none
          (some [6]) Option.none Option.none).low = some ls →
        res.lows.length = res.dates.length) ∧
      ((HistFrame.mk [Date.mk 1 1 2024] (some [5]) Option.none
          (some [6]) Option.none Option.none).open_ = Option.none →
        res.opens = []) ∧
      (∀ os, (HistFrame.mk [Date.mk 1 1 2024] (some [5]) Option.none
          (some [6]) Option.none Option.none).open_ = some os →
        res.opens.length = res.dates.length) :=
  C2_parallel_series "ibm" "1mo"
    (HistFrame.mk [Date.mk 1 1 2024] (some [5]) Option.none
      (some [6]) Option.none Option.none)
    ⟨rfl, trivial, rfl, trivial, trivial⟩ (by decide) [5] rfl

/-- Shape of a successful fetch: with a non-empty window and a `Close`
column, `get_stock_data` returns the merged base record and prints
nothing. -/
lemma get_stock_data_ok (symbol now : String) (info : List (String × PyVal))
    (hist : HistFrame) (closes : List ℚ) (hie : hist.index.isEmpty = false)
    (hcl : hist.close = some closes) :
    get_stock_data symbol (fun _ => Except.ok (info, hist)) now =
      (some (mergeInfoFields info
        (sd_base (pyStrip (pyUpper symbol)) now info hist closes)), []) := by
  simp only [get_stock_data, hie, Bool.false_eq_true, if_false, hcl]

/-- The base record read at `previous_close`. -/
lemma sd_base_previous_close (sym now : String) (info : List (String × PyVal))
    (hist : HistFrame) (closes : List ℚ) :
    dictGet (sd_base sym now info hist closes) "previous_close" =
      some (PyVal.num (sd_previous_close hist.index.length closes)) := rfl

/-- The base record read at `current_price`. -/
lemma sd_base_current_price (sym now : String) (info : List (String × PyVal))
    (hist : HistFrame) (closes : List ℚ) :
    dictGet (sd_base sym now info hist closes) "current_price" =
      some (PyVal.num (sd_current_price closes)) := rfl

/-- The base record read at `change`. -/
lemma sd_base_change (sym now : String) (info : List (String × PyVal))
    (hist : HistFrame) (closes : List ℚ) :
    dictGet (sd_base sym now info hist closes) "change" =
      some (PyVal.num (sd_change hist.index.length closes)) := rfl

/-- The base record read at `change_percent`. -/
lemma sd_base_change_percent (sym now : String) (info : List (String × PyVal))
    (hist : HistFrame) (closes : List ℚ) :
    dictGet (sd_base sym now info hist closes) "change_percent" =
      some (PyVal.num (sd_change_percent hist.index.length closes)) := rfl

/-- The base record read at `volume`. -/
lemma sd_base_volume (sym now : String) (info : List (String × PyVal))
    (hist : HistFrame) (closes : List ℚ) :
    dictGet (sd_base sym now info hist closes) "volume" =
      some (PyVal.num (sd_volume hist)) := rfl

/-- The base record read at `high`. -/
lemma sd_base_high (sym now : String) (info : List (String × PyVal))
    (hist : HistFrame) (closes : List ℚ) :
    dictGet (sd_base sym now info hist closes) "high" =
      some (PyVal.num (sd_high hist closes)) := rfl

/-- The base record read at `low`. -/
lemma sd_base_low (sym now : String) (info : List (String × PyVal))
    (hist : HistFrame) (closes : List ℚ) :
    dictGet (sd_base sym now info hist closes) "low" =
      some (PyVal.num (sd_low hist closes)) := rfl

/-- The computed headline keys are not catalog keys, so the merge loop
never overwrites them. -/
lemma previous_close_not_catalog : "previous_close" ∉ all_fields_keys := by decide

lemma current_price_not_catalog : "current_price" ∉ all_fields_keys := by decide

lemma change_not_catalog : "change" ∉ all_fields_keys := by decide

lemma change_percent_not_catalog : "change_percent" ∉ all_fields_keys := by decide

lemma high_not_catalog : "high" ∉ all_fields_keys := by decide

lemma low_not_catalog : "low" ∉ all_fields_keys := by decide

/-- C4: with exactly one historical row, the record's previous close
equals its current price and both the absolute and the percentage change
are 0; and in every successfully fetched record, a previous close of 0
forces a percentage change of 0 (the guard keeps the division away from
a zero divisor). -/
theorem C4_one_row_and_zero_divisor :
    (∀ (symbol now : String) (info : List (String × PyVal)) (hist : HistFrame)
      (cs : List ℚ), hist.index.length = 1 → hist.close = some cs →
      ∃ data, (get_stock_data symbol (fun _ => Except.ok (info, hist)) now).1 = some data ∧
        dictGet data "previous_close" = dictGet data "current_price" ∧
        dictGet data "change" = some (PyVal.num 0) ∧
        dictGet data "change_percent" = some (PyVal.num 0)) ∧
    (∀ (symbol now : String) (info : List (String × PyVal)) (hist : HistFrame)
      (data : List (String × PyVal)),
      (get_stock_data symbol (fun _ => Except.ok (info, hist)) now).1 = some data →
      dictGet data "previous_close" = some (PyVal.num 0) →
      dictGet data "change_percent" = some (PyVal.num 0)) := by
  constructor
  · intro symbol now info hist cs hlen hcl
    have hie : hist.index.isEmpty = false := by
      cases hidx : hist.index with
      | nil => rw [hidx] at hlen; cases hlen
      | cons a t => rfl
    rw [get_stock_data_ok symbol now info hist cs hie hcl]
    have hpc : sd_previous_close hist.index.length cs = sd_current_price cs := by
      rw [hlen, sd_previous_close, if_neg (by norm_num)]
    refine ⟨_, rfl, ?_, ?_, ?_⟩
    · rw [mergeInfoFields_get_of_not_mem _ _ _ previous_close_not_catalog,
        mergeInfoFields_get_of_not_mem _ _ _ current_price_not_catalog,
        sd_base_previous_close, sd_base_current_price, hpc]
    · rw [mergeInfoFields_get_of_not_mem _ _ _ change_not_catalog, sd_base_change,
        sd_change, hpc, sub_self]
    · rw [mergeInfoFields_get_of_not_mem _ _ _ change_percent_not_catalog,
        sd_base_change_percent, sd_change_percent]
      split
      · rw [sd_change, hpc, sub_self, zero_div, zero_mul]
      · rfl
  · intro symbol now info hist data hres hpc
    by_cases hie : hist.index.isEmpty
    · simp [get_stock_data, hie] at hres
    · cases hcl : hist.close with
      | none =>
        simp only [get_stock_data, eq_self_iff_true, hie, Bool.false_eq_true,
          if_false, hcl] at hres
        cases hres
      | some cs =>
        have hie2 : hist.index.isEmpty = false := by
          cases h : hist.index.isEmpty
          · rfl
          · exact absurd h hie
        rw [get_stock_data_ok symbol now info hist cs hie2 hcl] at hres
        have hdata : data =
            mergeInfoFields info
              (sd_base (pyStrip (pyUpper symbol)) now info hist cs) := by
          cases hres; rfl
        subst hdata
        rw [mergeInfoFields_get_of_not_mem _ _ _ previous_close_not_catalog,
          sd_base_previous_close] at hpc
        have hzero : sd_previous_close hist.index.length cs = 0 := by
          have := Option.some.inj hpc
          exact PyVal.num.inj this
        rw [mergeInfoFields_get_of_not_mem _ _ _ change_percent_not_catalog,
          sd_base_change_percent, sd_change_percent, hzero]
        simp

/-- C4 witness: the theorem applied to a one-row window whose close is 0,
exercising both the one-row conjunct and the zero-divisor guard. -/
theorem C4_witness :
    ∃ data, (get_stock_data "ge" (fun _ => Except.ok ([],
        HistFrame.mk [Date.mk 3 1 2024] (some [0]) Option.none Option.none
          Option.none Option.none)) "t").1 = some data ∧
      dictGet data "previous_close" = dictGet data "current_price" ∧
      dictGet data "change" = some (PyVal.num 0) ∧
      dictGet data "change_percent" = some (PyVal.num 0) :=
  C4_one_row_and_zero_divisor.1 "ge" "t" []
    (HistFrame.mk [Date.mk 3 1 2024] (some [0]) Option.none Option.none
      Option.none Option.none) [0] rfl rfl

/-- C9 counterexample: when the provider metadata itself carries a
non-null `volume` entry, the merge loop overwrites the computed volume,
so a frame without a `Volume` column does not yield a record volume of
0. -/
theorem C9_counterexample :
    ∃ data, (get_stock_data "f" (fun _ => Except.ok ([("volume", PyVal.num 5)],
        HistFrame.mk [Date.mk 1 1 2024] (some [10]) Option.none Option.none
          Option.none Option.none)) "t").1 = some data ∧
      dictGet data "volume" = some (PyVal.num 5) ∧
      dictGet data "volume" ≠ some (PyVal.num 0) :=
  ⟨_, rfl, by decide, by decide⟩

/-- C9 (amended): provided the provider metadata does not supply a
non-null `volume` entry of its own (which the merge loop would write
over the computed value — `volume` is a catalog key, `high` and `low`
are not), a non-empty window without a `Volume` column yields a record
volume of 0, a window without a `High` (resp. `Low`) column yields a
record high (resp. low) equal to the record's current price, and each
present column contributes its last row. -/
theorem C9_column_defaults (symbol now : String) (info : List (String × PyVal))
    (hist : HistFrame) (cs : List ℚ) (hie : hist.index.isEmpty = false)
    (hcl : hist.close = some cs)
    (hinfo : dictGet info "volume" = Option.none ∨
      dictGet info "volume" = some PyVal.none) :
    ∃ data, (get_stock_data symbol (fun _ => Except.ok (info, hist)) now).1 = some data ∧
      (hist.volume = Option.none → dictGet data "volume" = some (PyVal.num 0)) ∧
      (∀ vs, hist.volume = some vs →
        dictGet data "volume" = some (PyVal.num (vs.getLastD 0))) ∧
      (hist.high = Option.none →
        dictGet data "high" = dictGet data "current_price") ∧
      (∀ hs, hist.high = some hs →
        dictGet data "high" = some (PyVal.num (hs.getLastD 0))) ∧
      (hist.low = Option.none →
        dictGet data "low" = dictGet data "current_price") ∧
      (∀ ls, hist.low = some ls →
        dictGet data "low" = some (PyVal.num (ls.getLastD 0))) := by
  rw [get_stock_data_ok symbol now info hist cs hie hcl]
  refine ⟨_, rfl, ?_, ?_, ?_, ?_, ?_, ?_⟩
  · intro hv
    rw [mergeInfoFields_get_of_absent _ _ _ hinfo, sd_base_volume, sd_volume, hv]
  · intro vs hv
    rw [mergeInfoFields_get_of_absent _ _ _ hinfo, sd_base_volume, sd_volume, hv]
  · intro hh
    rw [mergeInfoFields_get_of_not_mem _ _ _ high_not_catalog,
      mergeInfoFields_get_of_not_mem _ _ _ current_price_not_catalog,
      sd_base_high, sd_base_current_price, sd_high, hh]
  · intro hs hh
    rw [mergeInfoFields_get_of_not_mem _ _ _ high_not_catalog, sd_base_high,
      sd_high, hh]
  · intro hl
    rw [mergeInfoFields_get_of_not_mem _ _ _ low_not_catalog,
      mergeInfoFields_get_of_not_mem _ _ _ current_price_not_catalog,
      sd_base_low, sd_base_current_price, sd_low, hl]
  · intro ls hl
    rw [mergeInfoFields_get_of_not_mem _ _ _ low_not_catalog, sd_base_low,
      sd_low, hl]

/-- C9 witness: the amended theorem applied to a frame with a `High`
column but no `Volume` or `Low` column, and metadata without a `volume`
entry. -/
theorem C9_witness :
    ∃ data, (get_stock_data "gm" (fun _ => Except.ok ([],
        HistFrame.mk [Date.mk 4 1 2024] (some [8]) Option.none (some [9])
          Option.none Option.none)) "t").1 = some data ∧
      ((HistFrame.mk [Date.mk 4 1 2024] (some [8]) Option.none (some [9])
          Option.none Option.none).volume = Option.none →
        dictGet data "volume" = some (PyVal.num 0)) ∧
      (∀ vs, (HistFrame.mk [Date.mk 4 1 2024] (some [8]) Option.none (some [9])
          Option.none Option.none).volume = some vs →
        dictGet data "volume" = some (PyVal.num (vs.getLastD 0))) ∧
      ((HistFrame.mk [Date.mk 4 1 2024] (some [8]) Option.none (some [9])
          Option.none Option.none).high = Option.none →
        dictGet data "high" = dictGet data "current_price") ∧
      (∀ hs, (HistFrame.mk [Date.mk 4 1 2024] (some [8]) Option.none (some [9])
          Option.none Option.none).high = some hs →
        dictGet data "high" = some (PyVal.num (hs.getLastD 0))) ∧
      ((HistFrame.mk [Date.mk 4 1 2024] (some [8]) Option.none (some [9])
          Option.none Option.none).low = Option.none →
        dictGet data "low" = dictGet data "current_price") ∧
      (∀ ls, (HistFrame.mk [Date.mk 4 1 2024] (some [8]) Option.none (some [9])
          Option.none Option.none).low = some ls →
        dictGet data "low" = some (PyVal.num (ls.getLastD 0))) :=
  C9_column_defaults "gm" "t" []
    (HistFrame.mk [Date.mk 4 1 2024] (some [8]) Option.none (some [9])
      Option.none Option.none) [8] rfl rfl (Or.inl rfl)

/-- C8: the object serialized by the JSON branch of `run` has no
`timestamp` key, and every other key reads exactly as in the fetched
record (values are the raw stored values; the deletion happens on a
copy, which the functional model renders as `json_payload` leaving its
argument untouched). -/
theorem C8_json_strips_timestamp :
    (∀ data : List (String × PyVal),
      dictGet (json_payload data) "timestamp" = Option.none) ∧
    (∀ (data : List (String × PyVal)) (k : String), k ≠ "timestamp" →
      dictGet (json_payload data) k = dictGet data k) := by
  constructor
  · intro data
    induction data with
    | nil => rfl
    | cons kv t ih =>
      simp only [json_payload] at ih ⊢
      by_cases h : kv.1 = "timestamp"
      · rw [List.filter_cons_of_neg (by simp [h])]
        exact ih
      · rw [List.filter_cons_of_pos (by simp [h]), dictGet_cons,
          if_neg (by simpa using h)]
        exact ih
  · intro data k hk
    induction data with
    | nil => rfl
    | cons kv t ih =>
      simp only [json_payload] at ih ⊢
      by_cases h : kv.1 = "timestamp"
      · have hkv : (kv.1 == k) = false := by
          rw [h]; simpa using Ne.symm hk
        rw [List.filter_cons_of_neg (by simp [h]), ih, dictGet_cons, hkv]
        simp
      · rw [List.filter_cons_of_pos (by simp [h]), dictGet_cons, dictGet_cons]
        by_cases h2 : kv.1 = k
        · simp [h2]
        · rw [if_neg (by simpa using h2), if_neg (by simpa using h2), ih]

/-- C8 witness: the theorem applied to a two-key record and the key
`symbol`. -/
theorem C8_witness :
    dictGet (json_payload
      [("symbol", PyVal.str "A"), ("timestamp", PyVal.str "t")]) "symbol" =
      dictGet [("symbol", PyVal.str "A"), ("timestamp", PyVal.str "t")] "symbol" :=
  C8_json_strips_timestamp.2
    [("symbol", PyVal.str "A"), ("timestamp", PyVal.str "t")] "symbol" (by decide)

/-- The requested-fields loop, rephrased from its accumulator form to a
map over the requested keys. -/
lemma display_specific_fields_spec (colors : List (String × String))
    (data : List (String × PyVal)) (fields : List String) :
    _display_specific_fields colors data fields =
      ("\n" ++ colorize colors "Requested Fields:" "bold") ::
        fields.map (fun field =>
          match all_fields.find? (fun kv => kv.1 == field) with
          | some kv =>
              "  " ++ kv.2 ++ ": " ++
                format_field_value field (dictGetD data field PyVal.none)
          | Option.none => "  " ++ field ++ ": Field not available") := by
  have key : ∀ (fs : List String) (init : List String),
      fs.foldl (fun out field =>
        match all_fields.find? (fun kv => kv.1 == field) with
        | some kv =>
            out ++ ["  " ++ kv.2 ++ ": " ++
              format_field_value field (dictGetD data field PyVal.none)]
        | Option.none => out ++ ["  " ++ field ++ ": Field not available"]) init =
      init ++ fs.map (fun field =>
        match all_fields.find? (fun kv => kv.1 == field) with
        | some kv =>
            "  " ++ kv.2 ++ ": " ++
              format_field_value field (dictGetD data field PyVal.none)
        | Option.none => "  " ++ field ++ ": Field not available") := by
    intro fs
    induction fs with
    | nil => intro init; simp
    | cons f rest ih =>
      intro init
      rw [List.foldl_cons, List.map_cons]
      cases hf : all_fields.find? (fun kv => kv.1 == f) <;>
        simp only [hf] <;> rw [ih] <;> simp
  unfold _display_specific_fields
  rw [key]
  rfl

/-- C6: the requested-fields presenter prints one line per requested key
in the requested order — the catalog label and formatted value when the
key is in the catalog (a key absent from the record formats its default
`None` as `N/A` rather than being rejected), and `Field not available`
otherwise; concretely, `marketCap trailingPE bogusField` against a
record holding only a market cap. -/
theorem C6_specific_fields :
    (∀ (colors : List (String × String)) (data : List (String × PyVal))
      (fields : List String),
      _display_specific_fields colors data fields =
        ("\n" ++ colorize colors "Requested Fields:" "bold") ::
          fields.map (fun field =>
            match all_fields.find? (fun kv => kv.1 == field) with
            | some kv =>
                "  " ++ kv.2 ++ ": " ++
                  format_field_value field (dictGetD data field PyVal.none)
            | Option.none => "  " ++ field ++ ": Field not available")) ∧
    _display_specific_fields no_colors [("marketCap", PyVal.num 3600000000000)]
        ["marketCap", "trailingPE", "bogusField"] =
      ["\nRequested Fields:", "  Market Cap: $3.60T", "  P/E Ratio (TTM): N/A",
       "  bogusField: Field not available"] := by
  refine ⟨display_specific_fields_spec, ?_⟩
  rw [display_specific_fields_spec]
  have hval : dictGetD [("marketCap", PyVal.num 3600000000000)] "marketCap"
      PyVal.none = PyVal.num 3600000000000 := rfl
  have hfmt : format_field_value "marketCap" (PyVal.num 3600000000000) =
      "$3.60T" := by
    simp only [format_field_value]
    rw [if_neg (by decide), if_pos (by decide), format_large_number,
      if_pos (by norm_num [TRILLION]), fmtFixed2_eval _ 360 (by norm_num [TRILLION])]
    decide
  simp only [List.map_cons, List.map_nil, hval]
  rw [hfmt]
  decide

/-- The per-category collection loop, rephrased as a filterMap: exactly
the fields present and non-null in the record, in catalog order. -/
lemma categoryLines_eq_filterMap (data : List (String × PyVal))
    (fields : List (String × String)) :
    categoryLines data fields = fields.filterMap (fun kv =>
      match dictGet data kv.1 with
      | some v =>
          if v ≠ PyVal.none then some (kv.2, format_field_value kv.1 v)
          else Option.none
      | Option.none => Option.none) := by
  have key : ∀ (fs : List (String × String)) (acc : List (String × String)),
      fs.foldl (fun acc kv =>
        match dictGet data kv.1 with
        | some v =>
            if v ≠ PyVal.none then acc ++ [(kv.2, format_field_value kv.1 v)]
            else acc
        | Option.none => acc) acc =
      acc ++ fs.filterMap (fun kv =>
        match dictGet data kv.1 with
        | some v =>
            if v ≠ PyVal.none then some (kv.2, format_field_value kv.1 v)
            else Option.none
        | Option.none => Option.none) := by
    intro fs
    induction fs with
    | nil => intro acc; simp
    | cons kv rest ih =>
      intro acc
      rw [List.foldl_cons, List.filterMap_cons]
      cases hv : dictGet data kv.1 with
      | none => simp only [hv]; rw [ih]
      | some v =>
        by_cases hn : v = PyVal.none
        · subst hn
          simp only [hv]
          rw [if_neg (fun h => h rfl), if_neg (fun h => h rfl), ih]
        · simp only [hv, ne_eq, hn, not_false_iff, if_true]
          rw [ih]
          simp
  unfold categoryLines
  rw [key]
  rfl

/-- The all-fields presenter, rephrased from its accumulator form to a
flattened map over the categories in catalog order. -/
lemma display_all_fields_spec (colors : List (String × String))
    (data : List (String × PyVal)) :
    _display_all_fields colors data =
      (field_categories.map (fun cat =>
        if (categoryLines data cat.2).isEmpty then []
        else ("\n" ++ colorize colors (cat.1 ++ ":") "bold") ::
          (categoryLines data cat.2).map (fun p => "  " ++ p.1 ++ ": " ++ p.2))).flatten := by
  have key : ∀ (cats : List (String × List (String × String))) (init : List String),
      cats.foldl (fun out cat =>
        let category_data := categoryLines data cat.2
        if category_data.isEmpty then out
        else out ++ (("\n" ++ colorize colors (cat.1 ++ ":") "bold") ::
          category_data.map (fun p => "  " ++ p.1 ++ ": " ++ p.2))) init =
      init ++ (cats.map (fun cat =>
        if (categoryLines data cat.2).isEmpty then []
        else ("\n" ++ colorize colors (cat.1 ++ ":") "bold") ::
          (categoryLines data cat.2).map (fun p => "  " ++ p.1 ++ ": " ++ p.2))).flatten := by
    intro cats
    induction cats with
    | nil => intro init; simp
    | cons c rest ih =>
      intro init
      rw [List.foldl_cons, List.map_cons, List.flatten_cons]
      by_cases hc : (categoryLines data c.2).isEmpty
      · simp only [hc, if_true]
        rw [ih]
        simp [hc]
      · simp only [hc, Bool.false_eq_true, if_false]
        rw [ih]
        simp [hc, List.append_assoc]
  unfold _display_all_fields
  rw [key]
  rfl

/-- C7: the all-fields presenter iterates the categories in catalog
declaration order; within a category it prints exactly the fields
present and non-null in the record, in catalog order; a category whose
fields are all null or absent contributes nothing at all — not even a
header. -/
theorem C7_all_fields_by_category :
    (∀ (colors : List (String × String)) (data : List (String × PyVal)),
      _display_all_fields colors data =
        (field_categories.map (fun cat =>
          if (categoryLines data cat.2).isEmpty then []
          else ("\n" ++ colorize colors (cat.1 ++ ":") "bold") ::
            (categoryLines data cat.2).map (fun p => "  " ++ p.1 ++ ": " ++ p.2))).flatten) ∧
    (∀ (data : List (String × PyVal)) (fields : List (String × String)),
      categoryLines data fields = fields.filterMap (fun kv =>
        match dictGet data kv.1 with
        | some v =>
            if v ≠ PyVal.none then some (kv.2, format_field_value kv.1 v)
            else Option.none
        | Option.none => Option.none)) ∧
    (∀ (data : List (String × PyVal)) (fields : List (String × String)),
      (∀ kv ∈ fields, dictGet data kv.1 = Option.none ∨
        dictGet data kv.1 = some PyVal.none) →
      categoryLines data fields = []) := by
  refine ⟨display_all_fields_spec, categoryLines_eq_filterMap, ?_⟩
  intro data fields h
  rw [categoryLines_eq_filterMap, List.filterMap_eq_nil_iff]
  intro kv hkv
  rcases h kv hkv with h0 | h0 <;> simp [h0]

/-- C7 witness: the empty-category conjunct applied to a record in which
one field of the category is null and the other absent. -/
theorem C7_witness :
    categoryLines [("longName", PyVal.none)]
      [("longName", "Company Name"), ("shortName", "Short Name")] = [] :=
  C7_all_fields_by_category.2.2 [("longName", PyVal.none)]
    [("longName", "Company Name"), ("shortName", "Short Name")] (by decide)

/-- C10: on a non-empty record the display dispatch flattens to a fixed
precedence for the additional-information block — `--all` wins over
`--fields`, which wins over the `-d` legacy block, and exactly one (or,
with no flag, none) of the three is rendered — while the header/price
section is always first, the trading-info block accompanies `-d`, and
the footer is always last, for every flag combination. -/
theorem C10_display_precedence (colors : List (String × String))
    (data : List (String × PyVal)) (detailed : Bool)
    (specific_fields : Option (List String)) (show_all : Bool)
    (hne : data ≠ []) :
    display_stock_info colors data detailed specific_fields show_all =
      headerPriceSection colors data ++
      (if detailed then tradingInfoSection colors data else []) ++
      (if show_all then _display_all_fields colors data
       else if truthyFields specific_fields then
         _display_specific_fields colors data (specific_fields.getD [])
       else if detailed then _display_detailed_info colors data
       else []) ++
      footerSection colors data := by
  have hie : data.isEmpty = false := by
    cases hd : data with
    | nil => exact absurd hd hne
    | cons a t => rfl
  cases hsa : show_all <;> cases htf : truthyFields specific_fields <;>
    cases hd : detailed <;>
      simp [display_stock_info, hie, hsa, htf, hd]

/-- C10 witness: the theorem applied with all three flags set at once on
a one-key record. -/
theorem C10_witness :
    display_stock_info no_colors [("name", PyVal.str "X")] true
        (some ["marketCap"]) true =
      headerPriceSection no_colors [("name", PyVal.str "X")] ++
      (if true then tradingInfoSection no_colors [("name", PyVal.str "X")] else []) ++
      (if true then _display_all_fields no_colors [("name", PyVal.str "X")]
       else if truthyFields (some ["marketCap"]) then
         _display_specific_fields no_colors [("name", PyVal.str "X")]
           ((some ["marketCap"]).getD [])
       else if true then _display_detailed_info no_colors [("name", PyVal.str "X")]
       else []) ++
      footerSection no_colors [("name", PyVal.str "X")] :=
  C10_display_precedence no_colors [("name", PyVal.str "X")] true
    (some ["marketCap"]) true (by decide)

end StockCLI
